import Mathlib

/-!
Verification of the WooCommerce order-export pipeline
(`new.py`, `new2.py`, `new3.py`, `getOrdersWoocommerce.py`,
`woocommerce_tracker.py`).

Strings are modelled as `List Char` where character-level processing
matters (the phone normalizer) and as Lean `String` elsewhere; machine
file state is modelled explicitly (`JsonFile` for the JSON stores,
`Option (List (Row α))` for CSV files, where `none` means the file does
not exist).  A Python function that can raise an uncaught exception is
modelled with `Except`.
-/

namespace Woo

/-! ### Data model: orders (shape shared by all script variants) -/

structure LineItem where
  name : String
  price : String
  quantity : Int
deriving DecidableEq

structure Billing where
  first_name : String
  last_name : String
  address_1 : String
  city : String
  state : String
  phone : String
  email : String
deriving DecidableEq

structure Order where
  id : Int
  customer_id : Int
  date_created : String
  billing : Billing
  line_items : List LineItem
deriving DecidableEq

/-! ### Phone normalizer (`format_ghanaian_phone`, new2.py:52-61 / new3.py:52-60)

Python:
```
phone = "".join(filter(str.isdigit, phone))
if len(phone) == 9 and phone.startswith("2"):    return f"+233" + phone
elif len(phone) == 10 and phone.startswith("0"): return "+233" + phone[1:]
elif len(phone) == 12 and phone.startswith("233"): return "+" + phone
return None
```
`str.isdigit` is modelled as decimal-digit (`Char.isDigit`);
`s.startswith(p)` is modelled as `s.take p.length = p.data`. -/

def stripNonDigits (s : List Char) : List Char :=
  s.filter Char.isDigit

def format_ghanaian_phone (s : List Char) : Option (List Char) :=
  let phone := stripNonDigits s
  if phone.length = 9 ∧ phone.take 1 = ['2'] then
    some ('+' :: '2' :: '3' :: '3' :: phone)
  else if phone.length = 10 ∧ phone.take 1 = ['0'] then
    some ('+' :: '2' :: '3' :: '3' :: phone.tail)
  else if phone.length = 12 ∧ phone.take 3 = ['2', '3', '3'] then
    some ('+' :: phone)
  else
    none

/-! ### Helper lemmas about the normalizer -/

theorem stripNonDigits_all_digits (s : List Char) :
    ∀ c ∈ stripNonDigits s, c.isDigit = true := by
  intro c hc
  exact List.of_mem_filter hc

theorem stripNonDigits_idem (s : List Char) :
    stripNonDigits (stripNonDigits s) = stripNonDigits s := by
  rw [stripNonDigits, List.filter_eq_self]
  exact stripNonDigits_all_digits s

theorem stripNonDigits_eq_self {l : List Char}
    (h : ∀ c ∈ l, c.isDigit = true) : stripNonDigits l = l := by
  rw [stripNonDigits, List.filter_eq_self]
  exact h

theorem stripNonDigits_cons_nondigit (c : Char) (h : c.isDigit = false)
    (l : List Char) : stripNonDigits (c :: l) = stripNonDigits l := by
  simp [stripNonDigits, List.filter_cons, h]

theorem stripNonDigits_cons_digit (c : Char) (h : c.isDigit = true)
    (l : List Char) : stripNonDigits (c :: l) = c :: stripNonDigits l := by
  simp [stripNonDigits, List.filter_cons, h]

/-- The normalizer only looks at the digit subsequence of its input. -/
theorem format_strip_invariant (s : List Char) :
    format_ghanaian_phone (stripNonDigits s) = format_ghanaian_phone s := by
  unfold format_ghanaian_phone
  rw [stripNonDigits_idem]

/-! ### Processed-orders store (`load_processed_orders` / `save_processed_orders`)

A JSON file on disk is absent, present-but-unparsable, or a parsed list
of order identifiers.  `new.py:34-44` (identical in new2/new3/
getOrdersWoocommerce) opens the file without a `try` guard, so
`json.load` raising on a corrupt file propagates: the load is modelled
with `Except`.  `woocommerce_tracker.py:64-74` (`_load_json_file`
called with `default_type = set`) wraps the read in `try/except` and
returns the empty default on any failure. -/

inductive JsonFile where
  | absent
  | corrupt
  | parsed (ids : List Int)
deriving DecidableEq

/-- `new.py` `load_processed_orders`: `set(json.load(file))` if the file
exists (raising on a parse failure, modelled as `Except.error`),
else the empty set. -/
def load_processed_orders : JsonFile → Except Unit (Finset Int)
  | JsonFile.absent => Except.ok ∅
  | JsonFile.corrupt => Except.error ()
  | JsonFile.parsed ids => Except.ok ids.toFinset

/-- `woocommerce_tracker.py` `_load_json_file(filepath, set)`: the read
is inside `try/except`, so absent and unparsable files both degrade to
the empty set without raising. -/
def loadJsonFileSet : JsonFile → Finset Int
  | JsonFile.absent => ∅
  | JsonFile.corrupt => ∅
  | JsonFile.parsed ids => ids.toFinset

/-- `new.py` `save_processed_orders`: `json.dump(list(order_ids), file)`
overwrites the backing file with the set serialized as a list
(Python's `list(set)` enumeration order is arbitrary; the model picks
the sorted enumeration). -/
def save_processed_orders (order_ids : Finset Int) : JsonFile :=
  JsonFile.parsed (order_ids.sort (· ≤ ·))

/-! ### Dedup filter and the per-run state machine (`new.py:90-109`) -/

/-- `[order for order in all_orders if order['id'] not in processed_orders]` -/
def filterNew (orders : List Order) (processed : Finset Int) : List Order :=
  orders.filter (fun o => o.id ∉ processed)

structure RunResult where
  newOrders : List Order
  persisted : Finset Int
  wroteOutput : Bool
deriving DecidableEq

/-- One run of `new.py`'s `__main__` over an already-loaded processed
set: filter the fetched orders, and if any are new, union their ids in
and write the output file plus the state file. -/
def mainRun (orders : List Order) (processed : Finset Int) : RunResult :=
  let newOrders := filterNew orders processed
  if newOrders = [] then
    { newOrders := newOrders, persisted := processed, wroteOutput := false }
  else
    { newOrders := newOrders
      persisted := processed ∪ (newOrders.map Order.id).toFinset
      wroteOutput := true }

/-- One run of `new.py`'s `__main__` starting from the on-disk state
file: load (propagating a parse failure), run, and write the state file
back only when there were new orders. -/
def mainRunFromFile (fileBefore : JsonFile) (orders : List Order) :
    Except Unit (RunResult × JsonFile) :=
  match load_processed_orders fileBefore with
  | Except.error e => Except.error e
  | Except.ok processed =>
    let r := mainRun orders processed
    Except.ok (r, if r.wroteOutput then save_processed_orders r.persisted else fileBefore)

/-! ### Customer directory (`woocommerce_tracker.py:86-102`) -/

structure CustomerRecord where
  email : String
  phone : String
  first_name : String
  last_name : String
  address : String
  city : String
  last_order_date : String
  total_orders : Int
deriving DecidableEq

/-- The customer database is a map keyed by `str(order['customer_id'])`. -/
def CustDB : Type := String → Option CustomerRecord

/-- `self.customers_database.get(customer_id, {}).get('total_orders', 0)` -/
def priorTotalOrders (db : CustDB) (k : String) : Int :=
  match db k with
  | none => 0
  | some r => r.total_orders

/-- `WooCommerceTracker.update_customer_database`: build the record from
the order's billing sub-record, with `total_orders` = prior count + 1
and `last_order_date` = the run's date, then store it under the key. -/
def update_customer_database (today_str : String) (db : CustDB) (order : Order) :
    CustDB :=
  fun k =>
    if k = toString order.customer_id then
      some
        { email := order.billing.email
          phone := order.billing.phone
          first_name := order.billing.first_name
          last_name := order.billing.last_name
          address := order.billing.address_1
          city := order.billing.city
          last_order_date := today_str
          total_orders := priorTotalOrders db (toString order.customer_id) + 1 }
    else db k

/-! ### Write events and the three `__main__` variants relevant to C4 -/

/-- The distinct file writes a run can perform (payloads are modelled
separately where a claim needs them). -/
inductive WriteEvent where
  | allOrdersDump
  | newOrdersJson
  | vdlCsv
  | strideCsv
  | emailsCsv
  | phonesCsv
  | processedSave
  | customersSave
  | contactsExport
  | ordersReport
deriving DecidableEq

/-- `getOrdersWoocommerce.py:163-195` `__main__`: if the filtered batch
is empty, nothing is written and the processed set is untouched;
otherwise the three export writers run and the state file is saved. -/
def getOrdersMain (orders : List Order) (processed : Finset Int) :
    Finset Int × List WriteEvent :=
  let newOrders := filterNew orders processed
  if newOrders = [] then (processed, [])
  else
    (processed ∪ (newOrders.map Order.id).toFinset,
     [WriteEvent.newOrdersJson, WriteEvent.vdlCsv, WriteEvent.strideCsv,
      WriteEvent.processedSave])

/-- `new2.py:166-188` `__main__`: `save_json(ALL_ORDERS_FILE, all_orders)`
runs unconditionally before the batch is filtered; only the remaining
writes are guarded by the batch being nonempty. -/
def new2Main (orders : List Order) (processed : Finset Int) :
    Finset Int × List WriteEvent :=
  let newOrders := filterNew orders processed
  if newOrders = [] then (processed, [WriteEvent.allOrdersDump])
  else
    (processed ∪ (newOrders.map Order.id).toFinset,
     [WriteEvent.allOrdersDump, WriteEvent.newOrdersJson, WriteEvent.vdlCsv,
      WriteEvent.emailsCsv, WriteEvent.phonesCsv, WriteEvent.processedSave])

structure TrackerState where
  processed : Finset Int
  customers : CustDB

/-- `WooCommerceTracker.run` (woocommerce_tracker.py:172-201): on an
empty new-orders batch it returns before any mutation or write;
otherwise it adds each new id, upserts each new order into the customer
directory, and performs the four writes. -/
def trackerRun (today_str : String) (orders : List Order) (s : TrackerState) :
    TrackerState × List WriteEvent :=
  let newOrders := filterNew orders s.processed
  if newOrders = [] then (s, [])
  else
    ({ processed := s.processed ∪ (newOrders.map Order.id).toFinset
       customers := newOrders.foldl (update_customer_database today_str) s.customers },
     [WriteEvent.ordersReport, WriteEvent.processedSave,
      WriteEvent.customersSave, WriteEvent.contactsExport])

/-! ### CSV files and the append-mode writers -/

/-- A CSV row is either the header row or a data row carrying a record
of type `α`.  A file on disk is `none` (does not exist) or `some rows`. -/
inductive Row (α : Type) where
  | header
  | data (a : α)
deriving DecidableEq

def isHeader {α : Type} : Row α → Bool
  | Row.header => true
  | Row.data _ => false

def headerCount {α : Type} (rows : List (Row α)) : Nat :=
  (rows.filter isHeader).length

/-- `append_to_csv` (new2.py:63-71 / new3.py:62-70): check existence,
open in append mode (creating the file if needed), write the header only
when the file did not exist, then append one data row per record. -/
def append_to_csv {α : Type} (file : Option (List (Row α))) (rows : List α) :
    List (Row α) :=
  match file with
  | none => Row.header :: rows.map Row.data
  | some existing => existing ++ rows.map Row.data

/-- A sequence of runs each appending a batch to the same file. -/
def appendRuns {α : Type} (batches : List (List α)) (file : Option (List (Row α))) :
    Option (List (Row α)) :=
  batches.foldl (fun f b => some (append_to_csv f b)) file

/-! ### Per-line-item export rows (`getOrdersWoocommerce.py`) -/

/-- Region-code table `STATE_MAPPING` (getOrdersWoocommerce.py:33-47). -/
def STATE_MAPPING : List (String × String) :=
  [("GA", "Greater Accra"), ("AH", "Ashanti"), ("AA", "Ahafo"),
   ("BR", "Brong-Ahafo"), ("CE", "Central"), ("EP", "Eastern"),
   ("NR", "Northern"), ("UE", "Upper East"), ("UW", "Upper West"),
   ("WR", "Western"), ("VR", "Volta"), ("WP", "Western North"),
   ("CP", "Cape Coast")]

/-- `STATE_MAPPING.get(code, code)`: unmapped codes pass through. -/
def stateLookup (code : String) : String :=
  match STATE_MAPPING.find? (fun p => p.1 = code) with
  | some p => p.2
  | none => code

structure VdlRow where
  date : String
  product : String
  unit_price : String
  name_of_customer : String
  region : String
  location_of_customer : String
  phone_number : String
  quantity : Int
  comment : String
deriving DecidableEq

/-- One VDL data row per line item (getOrdersWoocommerce.py:122-135),
repeating the order-level fields on every row; the date column is the
run's file date. -/
def vdlRowOf (today_csv_date : String) (o : Order) (item : LineItem) : VdlRow :=
  { date := today_csv_date
    product := item.name
    unit_price := item.price
    name_of_customer := o.billing.first_name ++ " " ++ o.billing.last_name
    region := stateLookup o.billing.state
    location_of_customer := o.billing.address_1
    phone_number := o.billing.phone
    quantity := item.quantity
    comment := "" }

def vdlRows (today_csv_date : String) (orders : List Order) : List VdlRow :=
  (orders.map (fun o => o.line_items.map (vdlRowOf today_csv_date o))).flatten

/-- `save_orders_to_vdl_csv` (getOrdersWoocommerce.py:112-136): header
only when the file did not already exist, then the per-line-item rows. -/
def save_orders_to_vdl_csv (today_csv_date : String)
    (file : Option (List (Row VdlRow))) (orders : List Order) : List (Row VdlRow) :=
  match file with
  | none => Row.header :: (vdlRows today_csv_date orders).map Row.data
  | some existing => existing ++ (vdlRows today_csv_date orders).map Row.data

structure StrideRow where
  order_id : Int
  customer_name : String
  phone : String
  address : String
  product : String
  quantity : Int
  price : String
deriving DecidableEq

/-- One Stride data row per line item (getOrdersWoocommerce.py:149-159),
repeating the order-level fields on every row. -/
def strideRowOf (o : Order) (item : LineItem) : StrideRow :=
  { order_id := o.id
    customer_name := o.billing.first_name ++ " " ++ o.billing.last_name
    phone := o.billing.phone
    address := o.billing.address_1
    product := item.name
    quantity := item.quantity
    price := item.price }

def strideRows (orders : List Order) : List StrideRow :=
  (orders.map (fun o => o.line_items.map (strideRowOf o))).flatten

/-- `save_orders_to_stride_csv` (getOrdersWoocommerce.py:139-160). -/
def save_orders_to_stride_csv (file : Option (List (Row StrideRow)))
    (orders : List Order) : List (Row StrideRow) :=
  match file with
  | none => Row.header :: (strideRows orders).map Row.data
  | some existing => existing ++ (strideRows orders).map Row.data

/-! ### Concrete scenario data (spec §8: orders 101 and 102) -/

def item101a : LineItem := { name := "Shea Butter", price := "50.00", quantity := 2 }

def item101b : LineItem := { name := "Black Soap", price := "20.00", quantity := 1 }

def item102a : LineItem := { name := "Cocoa Butter", price := "35.00", quantity := 3 }

def billing101 : Billing :=
  { first_name := "Ama", last_name := "Mensah", address_1 := "12 Ring Road",
    city := "Accra", state := "GA", phone := "0558676095",
    email := "ama@example.com" }

def billing102 : Billing :=
  { first_name := "Kofi", last_name := "Boateng", address_1 := "5 Harbour St",
    city := "Tema", state := "ZZ", phone := "233558676095",
    email := "kofi@example.com" }

def order101 : Order :=
  { id := 101, customer_id := 7, date_created := "2026-10-12T10:00:00",
    billing := billing101, line_items := [item101a, item101b] }

def order102 : Order :=
  { id := 102, customer_id := 8, date_created := "2026-10-12T11:00:00",
    billing := billing102, line_items := [item102a] }

/-! ### Branch lemmas for the phone normalizer -/

theorem format_branch9 (s : List Char) (h1 : (stripNonDigits s).length = 9)
    (h2 : (stripNonDigits s).take 1 = ['2']) :
    format_ghanaian_phone s = some ('+' :: '2' :: '3' :: '3' :: stripNonDigits s) := by
  simp only [format_ghanaian_phone]
  rw [if_pos ⟨h1, h2⟩]

theorem format_branch10 (s : List Char) (h1 : (stripNonDigits s).length = 10)
    (h2 : (stripNonDigits s).take 1 = ['0']) :
    format_ghanaian_phone s =
      some ('+' :: '2' :: '3' :: '3' :: (stripNonDigits s).tail) := by
  simp only [format_ghanaian_phone]
  rw [if_neg (by rintro ⟨h, _⟩; omega), if_pos ⟨h1, h2⟩]

theorem format_branch12 (s : List Char) (h1 : (stripNonDigits s).length = 12)
    (h2 : (stripNonDigits s).take 3 = ['2', '3', '3']) :
    format_ghanaian_phone s = some ('+' :: stripNonDigits s) := by
  simp only [format_ghanaian_phone]
  rw [if_neg (by rintro ⟨h, _⟩; omega), if_neg (by rintro ⟨h, _⟩; omega),
    if_pos ⟨h1, h2⟩]

theorem format_branch_none (s : List Char)
    (h1 : ¬((stripNonDigits s).length = 9 ∧ (stripNonDigits s).take 1 = ['2']))
    (h2 : ¬((stripNonDigits s).length = 10 ∧ (stripNonDigits s).take 1 = ['0']))
    (h3 : ¬((stripNonDigits s).length = 12 ∧ (stripNonDigits s).take 3 = ['2', '3', '3'])) :
    format_ghanaian_phone s = none := by
  simp only [format_ghanaian_phone]
  rw [if_neg h1, if_neg h2, if_neg h3]

/-- Inversion: every successful normalization came from one of the three
shape classes. -/
theorem format_some_cases {s c : List Char}
    (h : format_ghanaian_phone s = some c) :
    ((stripNonDigits s).length = 9 ∧ (stripNonDigits s).take 1 = ['2'] ∧
        c = '+' :: '2' :: '3' :: '3' :: stripNonDigits s) ∨
    ((stripNonDigits s).length = 10 ∧ (stripNonDigits s).take 1 = ['0'] ∧
        c = '+' :: '2' :: '3' :: '3' :: (stripNonDigits s).tail) ∨
    ((stripNonDigits s).length = 12 ∧ (stripNonDigits s).take 3 = ['2', '3', '3'] ∧
        c = '+' :: stripNonDigits s) := by
  simp only [format_ghanaian_phone] at h
  split_ifs at h with h1 h2 h3
  · injection h with h
    exact Or.inl ⟨h1.1, h1.2, h.symm⟩
  · injection h with h
    exact Or.inr (Or.inl ⟨h2.1, h2.2, h.symm⟩)
  · injection h with h
    exact Or.inr (Or.inr ⟨h3.1, h3.2, h.symm⟩)

/-- Normalizing a string of the canonical shape `'+'` followed by twelve
digits beginning `233` returns it unchanged. -/
theorem format_canonical (m : List Char)
    (hdig : ∀ x ∈ m, x.isDigit = true) (hlen : m.length = 12)
    (h3 : m.take 3 = ['2', '3', '3']) :
    format_ghanaian_phone ('+' :: m) = some ('+' :: m) := by
  have hstrip : stripNonDigits ('+' :: m) = m := by
    rw [stripNonDigits_cons_nondigit _ (by decide), stripNonDigits_eq_self hdig]
  have := format_branch12 ('+' :: m) (by rw [hstrip]; exact hlen)
    (by rw [hstrip]; exact h3)
  rwa [hstrip] at this

/-- C2: the phone normalizer first strips every non-digit character and
then classifies the digit string: length 9 starting with `2` maps to
`+233` + digits, length 10 starting with `0` maps to `+233` + digits
without the leading zero, length 12 starting with `233` maps to `+` +
digits, and every other shape maps to `none`; in particular
`"0558676095"` and `"233558676095"` both map to `"+233558676095"` and
the 8-digit `"55867609"` is unrepresentable. -/
theorem c2_phone_classifier :
    (∀ s : List Char,
        format_ghanaian_phone s = format_ghanaian_phone (stripNonDigits s)) ∧
    (∀ s : List Char, (stripNonDigits s).length = 9 →
        (stripNonDigits s).take 1 = ['2'] →
        format_ghanaian_phone s =
          some ('+' :: '2' :: '3' :: '3' :: stripNonDigits s)) ∧
    (∀ s : List Char, (stripNonDigits s).length = 10 →
        (stripNonDigits s).take 1 = ['0'] →
        format_ghanaian_phone s =
          some ('+' :: '2' :: '3' :: '3' :: (stripNonDigits s).tail)) ∧
    (∀ s : List Char, (stripNonDigits s).length = 12 →
        (stripNonDigits s).take 3 = ['2', '3', '3'] →
        format_ghanaian_phone s = some ('+' :: stripNonDigits s)) ∧
    (∀ s : List Char,
        ¬((stripNonDigits s).length = 9 ∧ (stripNonDigits s).take 1 = ['2']) →
        ¬((stripNonDigits s).length = 10 ∧ (stripNonDigits s).take 1 = ['0']) →
        ¬((stripNonDigits s).length = 12 ∧
            (stripNonDigits s).take 3 = ['2', '3', '3']) →
        format_ghanaian_phone s = none) ∧
    format_ghanaian_phone ("0558676095".data) = some ("+233558676095".data) ∧
    format_ghanaian_phone ("233558676095".data) = some ("+233558676095".data) ∧
    format_ghanaian_phone ("55867609".data) = none :=
  ⟨fun s => (format_strip_invariant s).symm,
    fun s h1 h2 => format_branch9 s h1 h2,
    fun s h1 h2 => format_branch10 s h1 h2,
    fun s h1 h2 => format_branch12 s h1 h2,
    fun s h1 h2 h3 => format_branch_none s h1 h2 h3,
    by decide, by decide, by decide⟩

/-- Witness for C2: the 10-digit branch applied to a concrete input with
separator characters. -/
theorem c2_phone_classifier_witness :
    format_ghanaian_phone ("055-867-6095".data) =
      some ('+' :: '2' :: '3' :: '3' :: (stripNonDigits ("055-867-6095".data)).tail) :=
  c2_phone_classifier.2.2.1 ("055-867-6095".data) (by decide) (by decide)

/-- C8: the phone normalizer is total (every input yields `none` or some
canonical value) and idempotent on canonical outputs: whenever
normalization succeeds with value `c`, normalizing `c` again yields `c`. -/
theorem c8_phone_total_idempotent :
    (∀ s : List Char, format_ghanaian_phone s = none ∨
        ∃ c, format_ghanaian_phone s = some c) ∧
    (∀ s c : List Char, format_ghanaian_phone s = some c →
        format_ghanaian_phone c = some c) := by
  constructor
  · intro s
    cases h : format_ghanaian_phone s with
    | none => exact Or.inl rfl
    | some c => exact Or.inr ⟨c, rfl⟩
  · intro s c h
    rcases format_some_cases h with ⟨h1, _, rfl⟩ | ⟨h1, _, rfl⟩ | ⟨h1, h2, rfl⟩
    · refine format_canonical _ ?_ (by simp [h1]) rfl
      intro x hx
      simp only [List.mem_cons] at hx
      rcases hx with rfl | rfl | rfl | hx
      · decide
      · decide
      · decide
      · exact stripNonDigits_all_digits s x hx
    · refine format_canonical _ ?_ (by simp [List.length_tail, h1]) rfl
      intro x hx
      simp only [List.mem_cons] at hx
      rcases hx with rfl | rfl | rfl | hx
      · decide
      · decide
      · decide
      · exact stripNonDigits_all_digits s x (List.mem_of_mem_tail hx)
    · exact format_canonical _ (stripNonDigits_all_digits s) h1 h2

/-- Witness for C8: idempotence applied at the canonical output of
`"0558676095"`. -/
theorem c8_phone_total_idempotent_witness :
    format_ghanaian_phone ("+233558676095".data) = some ("+233558676095".data) :=
  c8_phone_total_idempotent.2 ("0558676095".data) ("+233558676095".data) (by decide)

/-- C9: every successful output of the phone normalizer is a
13-character string whose first character is `+` and whose remaining 12
characters are digits beginning with `233`. -/
theorem c9_phone_output_shape :
    ∀ s c : List Char, format_ghanaian_phone s = some c →
      c.length = 13 ∧ c.take 1 = ['+'] ∧
      (∀ x ∈ c.tail, x.isDigit = true) ∧ c.tail.take 3 = ['2', '3', '3'] := by
  intro s c h
  rcases format_some_cases h with ⟨h1, _, rfl⟩ | ⟨h1, _, rfl⟩ | ⟨h1, h2, rfl⟩
  · refine ⟨by simp [h1], rfl, ?_, rfl⟩
    intro x hx
    simp only [List.tail_cons, List.mem_cons] at hx
    rcases hx with rfl | rfl | rfl | hx
    · decide
    · decide
    · decide
    · exact stripNonDigits_all_digits s x hx
  · refine ⟨by simp [List.length_tail, h1], rfl, ?_, rfl⟩
    intro x hx
    simp only [List.tail_cons, List.mem_cons] at hx
    rcases hx with rfl | rfl | rfl | hx
    · decide
    · decide
    · decide
    · exact stripNonDigits_all_digits s x (List.mem_of_mem_tail hx)
  · refine ⟨by simp [h1], rfl, ?_, h2⟩
    intro x hx
    simp only [List.tail_cons] at hx
    exact stripNonDigits_all_digits s x hx

/-- Witness for C9: the shape facts at the output of `"0558676095"`. -/
theorem c9_phone_output_shape_witness :
    ("+233558676095".data).length = 13 ∧
      ("+233558676095".data).take 1 = ['+'] ∧
      (∀ x ∈ ("+233558676095".data).tail, x.isDigit = true) ∧
      ("+233558676095".data).tail.take 3 = ['2', '3', '3'] :=
  c9_phone_output_shape ("0558676095".data) ("+233558676095".data) (by decide)

/-! ### Store round-trip and run idempotence -/

theorem load_save (s : Finset Int) :
    load_processed_orders (save_processed_orders s) = Except.ok s := by
  show Except.ok ((s.sort (· ≤ ·)).toFinset) = Except.ok s
  rw [Finset.sort_toFinset]

theorem filterNew_eq_nil_iff (orders : List Order) (processed : Finset Int) :
    filterNew orders processed = [] ↔ ∀ o ∈ orders, o.id ∈ processed := by
  simp [filterNew, List.filter_eq_nil_iff]

theorem mem_filterNew (orders : List Order) (processed : Finset Int) (o : Order) :
    o ∈ filterNew orders processed ↔ o ∈ orders ∧ o.id ∉ processed := by
  simp [filterNew]

/-- After one run, every fetched order's id is in the persisted set. -/
theorem persisted_superset (orders : List Order) (processed : Finset Int) :
    ∀ o ∈ orders, o.id ∈ (mainRun orders processed).persisted := by
  intro o ho
  simp only [mainRun]
  by_cases hn : filterNew orders processed = []
  · rw [if_pos hn]
    exact (filterNew_eq_nil_iff orders processed).mp hn o ho
  · rw [if_neg hn]
    show o.id ∈ processed ∪ ((filterNew orders processed).map Order.id).toFinset
    rw [Finset.mem_union]
    by_cases hp : o.id ∈ processed
    · exact Or.inl hp
    · refine Or.inr ?_
      rw [List.mem_toFinset]
      exact List.mem_map_of_mem Order.id ((mem_filterNew _ _ _).mpr ⟨ho, hp⟩)

/-- Filtering the same orders against the state a run persisted yields
the empty batch. -/
theorem filterNew_after_run (orders : List Order) (processed : Finset Int) :
    filterNew orders (mainRun orders processed).persisted = [] :=
  (filterNew_eq_nil_iff _ _).mpr (persisted_superset orders processed)

/-- A run whose filtered batch is empty changes nothing and writes
nothing. -/
theorem mainRun_of_empty (orders : List Order) (processed : Finset Int)
    (h : filterNew orders processed = []) :
    mainRun orders processed =
      { newOrders := [], persisted := processed, wroteOutput := false } := by
  simp only [mainRun]
  rw [h]
  simp

/-- C10: persisting the processed-order set and loading it back is the
identity on the set of identifiers. -/
theorem c10_save_load_roundtrip :
    ∀ s : Finset Int,
      load_processed_orders (save_processed_orders s) = Except.ok s :=
  fun s => load_save s

/-- C3 counterexample: `new.py`'s `load_processed_orders` opens the
state file with no exception handler, so an unparsable file propagates
the parse error instead of returning the empty set. -/
theorem c3_load_counterexample :
    load_processed_orders JsonFile.corrupt = Except.error () ∧
      ¬ load_processed_orders JsonFile.corrupt = Except.ok (∅ : Finset Int) :=
  ⟨rfl, fun h => nomatch h⟩

/-- C3 (amended): the tracker's `_load_json_file` returns the persisted
set on a parsable file and the empty set on an absent or unparsable file
without raising; the script variants' `load_processed_orders` returns
the persisted set and degrades to the empty set only for an absent file,
raising on an unparsable one. -/
theorem c3_load_behaviour :
    (∀ ids : List Int,
        load_processed_orders (JsonFile.parsed ids) = Except.ok ids.toFinset) ∧
    load_processed_orders JsonFile.absent = Except.ok (∅ : Finset Int) ∧
    load_processed_orders JsonFile.corrupt = Except.error () ∧
    (∀ ids : List Int, loadJsonFileSet (JsonFile.parsed ids) = ids.toFinset) ∧
    loadJsonFileSet JsonFile.absent = ∅ ∧
    loadJsonFileSet JsonFile.corrupt = ∅ :=
  ⟨fun _ => rfl, rfl, rfl, fun _ => rfl, rfl, rfl⟩

/-- C1: after a first run persists its state, a second run over the same
fetched orders loads that state, produces an empty new-orders batch,
performs no write, and leaves the state file unchanged; moreover the
persisted set contains every fetched order's id. -/
theorem c1_second_run_is_noop :
    ∀ (orders : List Order) (processed : Finset Int),
      mainRunFromFile
          (save_processed_orders (mainRun orders processed).persisted) orders =
        Except.ok
          ({ newOrders := [], persisted := (mainRun orders processed).persisted,
              wroteOutput := false },
            save_processed_orders (mainRun orders processed).persisted) ∧
      (orders.map Order.id).toFinset ⊆ (mainRun orders processed).persisted := by
  intro orders processed
  constructor
  · have hrun : mainRun orders (mainRun orders processed).persisted =
        { newOrders := [], persisted := (mainRun orders processed).persisted,
          wroteOutput := false } :=
      mainRun_of_empty orders _ (filterNew_after_run orders processed)
    simp only [mainRunFromFile, load_save, hrun]
    simp
  · intro x hx
    simp only [List.mem_toFinset, List.mem_map] at hx
    obtain ⟨o, ho, rfl⟩ := hx
    exact persisted_superset orders processed o ho

/-! ### Empty-batch behaviour of the run variants (C4) -/

/-- C4 counterexample: with an empty fetch result (so an empty
new-orders batch), `new2.py` still performs a file write — it rewrites
its all-orders dump before the batch is even computed — contradicting
the claim that no output file is written. -/
theorem c4_empty_batch_counterexample :
    new2Main [] (∅ : Finset Int) = (∅, [WriteEvent.allOrdersDump]) ∧
      (new2Main [] (∅ : Finset Int)).2 ≠ [] := by
  refine ⟨rfl, ?_⟩
  intro h
  exact nomatch h

/-- C4 (amended): when the new-orders batch is empty, the tracker, the
`getOrdersWoocommerce.py` main, and the `new.py` main terminate with no
writes and no state mutation; `new2.py` mutates and persists neither
store and writes no export file, but has already rewritten its
unconditional all-orders dump. -/
theorem c4_empty_batch_no_writes :
    (∀ (today_str : String) (orders : List Order) (s : TrackerState),
        filterNew orders s.processed = [] →
        trackerRun today_str orders s = (s, [])) ∧
    (∀ (orders : List Order) (processed : Finset Int),
        filterNew orders processed = [] →
        getOrdersMain orders processed = (processed, [])) ∧
    (∀ (orders : List Order) (processed : Finset Int),
        filterNew orders processed = [] →
        new2Main orders processed = (processed, [WriteEvent.allOrdersDump])) ∧
    (∀ (orders : List Order) (processed : Finset Int),
        filterNew orders processed = [] →
        mainRun orders processed =
          { newOrders := [], persisted := processed, wroteOutput := false }) := by
  refine ⟨?_, ?_, ?_, fun orders processed h => mainRun_of_empty orders processed h⟩
  · intro today_str orders s h
    simp only [trackerRun]
    rw [h]
    simp
  · intro orders processed h
    simp only [getOrdersMain]
    rw [h]
    simp
  · intro orders processed h
    simp only [new2Main]
    rw [h]
    simp

/-- Witness for C4 (amended) at the empty fetch result. -/
theorem c4_empty_batch_no_writes_witness :
    trackerRun "2026-10-12" []
        { processed := ∅, customers := fun _ => none } =
      ({ processed := ∅, customers := fun _ => none }, []) ∧
    getOrdersMain [] ∅ = (∅, []) ∧
    new2Main [] ∅ = (∅, [WriteEvent.allOrdersDump]) ∧
    mainRun [] ∅ = { newOrders := [], persisted := ∅, wroteOutput := false } :=
  ⟨c4_empty_batch_no_writes.1 "2026-10-12" [] _ rfl,
    c4_empty_batch_no_writes.2.1 [] ∅ rfl,
    c4_empty_batch_no_writes.2.2.1 [] ∅ rfl,
    c4_empty_batch_no_writes.2.2.2 [] ∅ rfl⟩

/-! ### Header counting for append-mode CSV files (C5) -/

theorem filter_isHeader_map_data {α : Type} (rows : List α) :
    (rows.map Row.data).filter isHeader = [] := by
  rw [List.filter_eq_nil_iff]
  intro a ha
  obtain ⟨b, _, rfl⟩ := List.mem_map.mp ha
  simp [isHeader]

theorem headerCount_header_cons {α : Type} (rows : List α) :
    headerCount (Row.header :: rows.map Row.data) = 1 := by
  simp [headerCount, List.filter_cons, isHeader, filter_isHeader_map_data]

theorem headerCount_append_data {α : Type} (ex : List (Row α)) (rows : List α) :
    headerCount (ex ++ rows.map Row.data) = headerCount ex := by
  simp [headerCount, List.filter_append, filter_isHeader_map_data]

/-- Appending batches never changes the header count of an existing
file. -/
theorem appendRuns_headerCount {α : Type} (batches : List (List α)) :
    ∀ (ex : List (Row α)) (out : List (Row α)),
      appendRuns batches (some ex) = some out → headerCount out = headerCount ex := by
  induction batches with
  | nil =>
    intro ex out h
    injection h with h
    rw [← h]
  | cons b bs ih =>
    intro ex out h
    have hstep : appendRuns bs (some (append_to_csv (some ex) b)) = some out := h
    rw [ih (append_to_csv (some ex) b) out hstep]
    exact headerCount_append_data ex b

/-- C5: an append-mode writer writes the header first only when the
target file does not exist and appends data rows only when it does;
hence any nonempty sequence of runs appending to an initially
nonexistent file leaves exactly one header row, and the same holds for
`save_orders_to_vdl_csv`. -/
theorem c5_append_header_once :
    (∀ (α : Type) (rows : List α),
        append_to_csv (none : Option (List (Row α))) rows =
          Row.header :: rows.map Row.data) ∧
    (∀ (α : Type) (ex : List (Row α)) (rows : List α),
        append_to_csv (some ex) rows = ex ++ rows.map Row.data) ∧
    (∀ (α : Type) (b : List α) (bs : List (List α)) (out : List (Row α)),
        appendRuns (b :: bs) none = some out → headerCount out = 1) ∧
    (∀ (today_csv_date : String) (orders : List Order),
        headerCount (save_orders_to_vdl_csv today_csv_date none orders) = 1) ∧
    (∀ (today_csv_date : String) (ex : List (Row VdlRow)) (orders : List Order),
        headerCount (save_orders_to_vdl_csv today_csv_date (some ex) orders) =
          headerCount ex) := by
  refine ⟨fun α rows => rfl, fun α ex rows => rfl, ?_, ?_, ?_⟩
  · intro α b bs out h
    have hstep : appendRuns bs (some (append_to_csv none b)) = some out := h
    rw [appendRuns_headerCount bs (append_to_csv none b) out hstep]
    exact headerCount_header_cons b
  · intro today_csv_date orders
    exact headerCount_header_cons (vdlRows today_csv_date orders)
  · intro today_csv_date ex orders
    exact headerCount_append_data ex (vdlRows today_csv_date orders)

/-- Witness for C5: two runs appending to an initially nonexistent file
leave exactly one header row. -/
theorem c5_append_header_once_witness :
    headerCount [Row.header, Row.data 1, Row.data 2, Row.data (3 : Nat)] = 1 :=
  c5_append_header_once.2.2.1 Nat [1, 2] [[3]]
    [Row.header, Row.data 1, Row.data 2, Row.data 3] rfl

/-! ### Per-line-item explosion (C6) -/

theorem strideRows_length (orders : List Order) :
    (strideRows orders).length =
      (orders.map (fun o => o.line_items.length)).sum := by
  simp [strideRows, List.length_flatten, List.map_map, Function.comp_def]

theorem vdlRows_length (today_csv_date : String) (orders : List Order) :
    (vdlRows today_csv_date orders).length =
      (orders.map (fun o => o.line_items.length)).sum := by
  simp [vdlRows, List.length_flatten, List.map_map, Function.comp_def]

theorem strideRowOf_mem {orders : List Order} {o : Order} {item : LineItem}
    (ho : o ∈ orders) (hi : item ∈ o.line_items) :
    strideRowOf o item ∈ strideRows orders := by
  simp only [strideRows, List.mem_flatten]
  exact ⟨o.line_items.map (strideRowOf o),
    List.mem_map_of_mem _ ho, List.mem_map_of_mem _ hi⟩

theorem vdlRowOf_mem {today_csv_date : String} {orders : List Order} {o : Order}
    {item : LineItem} (ho : o ∈ orders) (hi : item ∈ o.line_items) :
    vdlRowOf today_csv_date o item ∈ vdlRows today_csv_date orders := by
  simp only [vdlRows, List.mem_flatten]
  exact ⟨o.line_items.map (vdlRowOf today_csv_date o),
    List.mem_map_of_mem _ ho, List.mem_map_of_mem _ hi⟩

/-- C6: the per-line-item CSV writers emit exactly one row per line item
of each order, repeating the order-level fields on each row; for the
two-order scenario with 2 and 1 line items they emit 3 data rows. -/
theorem c6_per_line_item_rows :
    (∀ orders : List Order, (strideRows orders).length =
        (orders.map (fun o => o.line_items.length)).sum) ∧
    (∀ (today_csv_date : String) (orders : List Order),
        (vdlRows today_csv_date orders).length =
          (orders.map (fun o => o.line_items.length)).sum) ∧
    (∀ (orders : List Order) (o : Order) (item : LineItem),
        o ∈ orders → item ∈ o.line_items → strideRowOf o item ∈ strideRows orders) ∧
    (∀ (today_csv_date : String) (orders : List Order) (o : Order) (item : LineItem),
        o ∈ orders → item ∈ o.line_items →
        vdlRowOf today_csv_date o item ∈ vdlRows today_csv_date orders) ∧
    strideRows [order101, order102] =
      [strideRowOf order101 item101a, strideRowOf order101 item101b,
        strideRowOf order102 item102a] ∧
    (strideRows [order101, order102]).length = 3 ∧
    (strideRows [order101, order102]).map StrideRow.customer_name =
      ["Ama Mensah", "Ama Mensah", "Kofi Boateng"] ∧
    (strideRows [order101, order102]).map StrideRow.address =
      ["12 Ring Road", "12 Ring Road", "5 Harbour St"] ∧
    (strideRows [order101, order102]).map StrideRow.phone =
      ["0558676095", "0558676095", "233558676095"] ∧
    (vdlRows "12-10-2026" [order101, order102]).length = 3 ∧
    (vdlRows "12-10-2026" [order101, order102]).map VdlRow.date =
      ["12-10-2026", "12-10-2026", "12-10-2026"] :=
  ⟨strideRows_length, vdlRows_length,
    fun _ _ _ ho hi => strideRowOf_mem ho hi,
    fun _ _ _ _ ho hi => vdlRowOf_mem ho hi,
    by decide, by decide, by decide, by decide, by decide, by decide, by decide⟩

/-- Witness for C6: membership of a concrete exploded row. -/
theorem c6_per_line_item_rows_witness :
    strideRowOf order101 item101b ∈ strideRows [order101, order102] :=
  c6_per_line_item_rows.2.2.1 [order101, order102] order101 item101b
    (by decide) (by decide)

/-! ### Customer-directory upsert (C7) -/

/-- C7: upserting an order sets the stored record under the order's
customer key to the order's billing values with the run's date and a
counter of prior + 1 (missing record counts as 0), leaves every other
key unchanged, and never decreases any counter. -/
theorem c7_upsert_semantics :
    ∀ (today_str : String) (db : CustDB) (order : Order),
      update_customer_database today_str db order (toString order.customer_id) =
        some
          { email := order.billing.email, phone := order.billing.phone,
            first_name := order.billing.first_name,
            last_name := order.billing.last_name,
            address := order.billing.address_1, city := order.billing.city,
            last_order_date := today_str,
            total_orders := priorTotalOrders db (toString order.customer_id) + 1 } ∧
      (∀ k, k ≠ toString order.customer_id →
          update_customer_database today_str db order k = db k) ∧
      (∀ k, priorTotalOrders db k ≤
          priorTotalOrders (update_customer_database today_str db order) k) ∧
      priorTotalOrders (update_customer_database today_str db order)
          (toString order.customer_id) =
        priorTotalOrders db (toString order.customer_id) + 1 := by
  intro today_str db order
  refine ⟨?_, ?_, ?_, ?_⟩
  · simp [update_customer_database]
  · intro k hk
    simp only [update_customer_database]
    rw [if_neg hk]
  · intro k
    by_cases hk : k = toString order.customer_id
    · subst hk
      simp [update_customer_database, priorTotalOrders]
    · simp only [update_customer_database, priorTotalOrders]
      rw [if_neg hk]
  · simp [update_customer_database, priorTotalOrders]

/-- Witness for C7: upsert of order 101 into the empty directory. -/
theorem c7_upsert_semantics_witness :
    update_customer_database "2026-10-12" (fun _ => none) order101
        (toString order101.customer_id) =
      some
        { email := "ama@example.com", phone := "0558676095",
          first_name := "Ama", last_name := "Mensah",
          address := "12 Ring Road", city := "Accra",
          last_order_date := "2026-10-12", total_orders := 1 } ∧
    update_customer_database "2026-10-12" (fun _ => none) order101 "8" = none :=
  ⟨(c7_upsert_semantics "2026-10-12" (fun _ => none) order101).1,
    (c7_upsert_semantics "2026-10-12" (fun _ => none) order101).2.1 "8" (by decide)⟩

end Woo
